import Mathlib

/-!
Verification of the DementiaCheckBot intake flow (`src/bot.py`).

The embedding models, faithfully to the source:
  * the Python string operations used by the per-step handlers
    (`str.split(",")`, `str.strip()`, `str.capitalize()`, `str.title()`);
  * the conversation state machine run by the Telegram dispatcher
    (`ConversationHandler` with states NAME..IMAGE, `/cancel` fallback,
    `/start` entry point), including the fact that the source keeps a
    single module-level `user_data` dictionary shared by every chat;
  * the image handler `get_image` (download, PIL decode, model predict)
    with its partial exception handling;
  * the PDF generator `generate_pdf` as the ordered list of items drawn
    on the canvas.

Strings are `List Char`; images, blobs and session ids are opaque `Nat`
tokens; the Telegram transport and the classifier are an explicit
environment of functions (`Env`).
-/

abbrev Str := List Char

/-- Python `str.strip()` whitespace test (ASCII fragment). -/
def isPySpace (c : Char) : Bool := c.isWhitespace

/-- Python `str.split(",")`: split on every comma, keeping empty pieces.
`"".split(",") == [""]`. -/
def pySplitComma : Str → List Str
  | [] => [[]]
  | c :: rest =>
      if c = ',' then [] :: pySplitComma rest
      else
        match pySplitComma rest with
        | [] => [[c]]
        | p :: ps => (c :: p) :: ps

/-- Python `str.strip()`: drop leading and trailing whitespace. -/
def pyStrip (s : Str) : Str :=
  ((s.dropWhile isPySpace).reverse.dropWhile isPySpace).reverse

/-- Python `str.capitalize()`: first character uppercased, the rest
lowercased. -/
def pyCapitalize : Str → Str
  | [] => []
  | c :: rest => c.toUpper :: rest.map Char.toLower

/-- Helper for `str.title()`: the flag records whether the previous
character was alphabetic. -/
def pyTitleFrom : Bool → Str → Str
  | _, [] => []
  | prev, c :: rest =>
      (if c.isAlpha then (if prev then c.toLower else c.toUpper) else c)
        :: pyTitleFrom c.isAlpha rest

/-- Python `str.title()` (ASCII fragment): each letter starting a word is
uppercased, other letters lowercased. -/
def pyTitle (s : Str) : Str := pyTitleFrom false s

/-- The transformation both `get_symptoms` and `get_reason` apply:
`[s.strip().capitalize() for s in text.split(",")]`. -/
def splitTrimCap (t : Str) : List Str :=
  (pySplitComma t).map (fun s => pyCapitalize (pyStrip s))

/-- The conversation states NAME..IMAGE of the `ConversationHandler`.
`Terminal` (= `ConversationHandler.END`, conversation disposed) is
represented as `none` at the `Option Step` level. -/
inductive Step
  | name | age | gender | symptoms | reason | image
  deriving DecidableEq

/-- The module-level `user_data` dictionary: one field per key the
handlers ever store.  `none` means the key is absent. -/
structure SRec where
  name : Option Str
  age : Option Str
  gender : Option Str
  symptoms : Option (List Str)
  reason : Option (List Str)
  image : Option Nat
  diagnosis : Option Str
  deriving DecidableEq

/-- The dictionary at module load: empty. -/
def SRec.empty : SRec :=
  { name := none, age := none, gender := none, symptoms := none,
    reason := none, image := none, diagnosis := none }

/-- Observable outputs of one dispatched update: replies sent through the
channel (tagged by which `reply_text` call produced them), the PDF
document, and an invocation of the dispatcher's global error logger
`log_error`. -/
inductive Out
  | askName | askAge | askGender | askSymptoms | askReason | askImage
  | cancelled
  | warnDownload | warnFormat
  | prediction (label : Str)
  | generating
  | document
  | warnSendFail
  | logged
  deriving DecidableEq

/-- The external collaborators of one `get_image` run: Telegram file
download (`False` = `TelegramError`), PIL decode (`none` =
`UnidentifiedImageError`), and `model.predict` + `argmax` (`none` = the
predict call raises). -/
structure Env where
  download : Nat → Bool
  decode : Nat → Option Nat
  classify : Nat → Option Str

/-- Inbound updates the registered handlers distinguish: a non-command
text message, a photo message (the `Nat` is the blob token), and the
`/cancel` and `/start` commands. -/
inductive Ev
  | text (t : Str)
  | photo (blob : Nat)
  | cancelCmd
  | startCmd
  deriving DecidableEq

/-- Whole-process state: the per-chat conversation states kept by the
`ConversationHandler` (absence of a key = no active conversation /
`Terminal`), and the single shared `user_data` dictionary. -/
structure BotState where
  conv : List (Nat × Step)
  data : SRec
  deriving DecidableEq

/-- Conversation state of session `sid` (`none` = Terminal / disposed). -/
def lookupConv (l : List (Nat × Step)) (sid : Nat) : Option Step :=
  (l.find? (fun p => p.1 = sid)).map (fun p => p.2)

/-- Record the next conversation state for `sid`; `none` removes the
conversation (the handler returned `ConversationHandler.END`). -/
def setConv (l : List (Nat × Step)) (sid : Nat) : Option Step → List (Nat × Step)
  | none => l.filter (fun p => ¬ p.1 = sid)
  | some st => (sid, st) :: l.filter (fun p => ¬ p.1 = sid)

/-- `start`: greet and enter the NAME state. -/
def start : Option Step × List Out := (some Step.name, [Out.askName])

/-- `get_name`: store `text.title().strip()`, go to AGE. -/
def get_name (d : SRec) (t : Str) : SRec × Option Step × List Out :=
  ({ d with name := some (pyStrip (pyTitle t)) }, some Step.age, [Out.askAge])

/-- `get_age`: store `text.strip()`, go to GENDER. -/
def get_age (d : SRec) (t : Str) : SRec × Option Step × List Out :=
  ({ d with age := some (pyStrip t) }, some Step.gender, [Out.askGender])

/-- `get_gender`: store `text.capitalize().strip()`, go to SYMPTOMS. -/
def get_gender (d : SRec) (t : Str) : SRec × Option Step × List Out :=
  ({ d with gender := some (pyStrip (pyCapitalize t)) }, some Step.symptoms,
    [Out.askSymptoms])

/-- `get_symptoms`: store the split/strip/capitalize list, go to REASON. -/
def get_symptoms (d : SRec) (t : Str) : SRec × Option Step × List Out :=
  ({ d with symptoms := some (splitTrimCap t) }, some Step.reason, [Out.askReason])

/-- `get_reason`: store the split/strip/capitalize list, go to IMAGE. -/
def get_reason (d : SRec) (t : Str) : SRec × Option Step × List Out :=
  ({ d with reason := some (splitTrimCap t) }, some Step.image, [Out.askImage])

/-- `get_image` on a photo update.  Returns the mutated dictionary, the
state the handler returns (`none` = END), the outputs emitted before
returning/raising, and whether the handler raised an uncaught exception
(`model.predict` failing: nothing in the source catches it).  The PDF
content itself is modelled separately by `generate_pdf`. -/
def get_image (env : Env) (d : SRec) (blob : Nat) :
    SRec × Option Step × List Out × Bool :=
  if env.download blob = false then
    (d, none, [Out.warnDownload], false)
  else
    match env.decode blob with
    | none => (d, none, [Out.warnFormat], false)
    | some img =>
        let d1 := { d with image := some img }
        match env.classify img with
        | none => (d1, some Step.image, [], true)
        | some label =>
            let d2 := { d1 with diagnosis := some label }
            (d2, none, [Out.prediction label, Out.generating, Out.document], false)

/-- One dispatched update for chat `sid`, following the
`ConversationHandler` dispatch of the source: entry point `/start` when
no conversation is active; otherwise the current state's handler
(`Filters.text & ~Filters.command` for NAME..REASON, `Filters.photo` for
IMAGE), then the `/cancel` fallback; unmatched updates are no-ops.  When
a handler raises, the dispatcher runs `log_error` and the conversation
state is left unchanged. -/
def handle (env : Env) (st : BotState) (sid : Nat) : Ev → BotState × List Out :=
  fun ev =>
  match lookupConv st.conv sid with
  | none =>
      match ev with
      | Ev.startCmd =>
          ({ st with conv := setConv st.conv sid start.1 }, start.2)
      | _ => (st, [])
  | some cur =>
      match ev with
      | Ev.cancelCmd =>
          ({ st with conv := setConv st.conv sid none }, [Out.cancelled])
      | Ev.startCmd => (st, [])
      | Ev.text t =>
          match cur with
          | Step.name =>
              let r := get_name st.data t
              ({ conv := setConv st.conv sid r.2.1, data := r.1 }, r.2.2)
          | Step.age =>
              let r := get_age st.data t
              ({ conv := setConv st.conv sid r.2.1, data := r.1 }, r.2.2)
          | Step.gender =>
              let r := get_gender st.data t
              ({ conv := setConv st.conv sid r.2.1, data := r.1 }, r.2.2)
          | Step.symptoms =>
              let r := get_symptoms st.data t
              ({ conv := setConv st.conv sid r.2.1, data := r.1 }, r.2.2)
          | Step.reason =>
              let r := get_reason st.data t
              ({ conv := setConv st.conv sid r.2.1, data := r.1 }, r.2.2)
          | Step.image => (st, [])
      | Ev.photo blob =>
          match cur with
          | Step.image =>
              let r := get_image env st.data blob
              if r.2.2.2 then
                ({ st with data := r.1 }, r.2.2.1 ++ [Out.logged])
              else
                ({ conv := setConv st.conv sid r.2.1, data := r.1 }, r.2.2.1)
          | _ => (st, [])

/-- Run a list of `(sessionId, event)` updates through the dispatcher. -/
def runEvents (env : Env) (st : BotState) (evs : List (Nat × Ev)) : BotState :=
  evs.foldl (fun s p => (handle env s p.1 p.2).1) st

/-- Index of a conversation state in the flow order
Name → Age → Gender → Symptoms → Reason → Image → Terminal. -/
def stepIdx : Option Step → Nat
  | some Step.name => 0
  | some Step.age => 1
  | some Step.gender => 2
  | some Step.symptoms => 3
  | some Step.reason => 4
  | some Step.image => 5
  | none => 6

/-- The items `generate_pdf` draws on the canvas, in draw order. -/
inductive PdfItem
  | title
  | timestamp
  | demographicsHeading
  | findingsHeading
  | diagHeading
  | recHeading
  | line (s : Str)
  | bullet (s : Str)
  | imageThumb
  | placeholder
  | footer
  deriving DecidableEq

/-- The fixed `doctor_notes` label → advisory-text table of the source. -/
def doctor_notes : List (Str × Str) :=
  [("NonDemented".data, "No signs of dementia detected. Maintain regular check‑ups.".data),
   ("VeryMildDemented".data, "Very mild cognitive symptoms observed. Recommend monitoring.".data),
   ("MildDemented".data, "Mild dementia detected. Clinical evaluation advised.".data),
   ("ModerateDemented".data, "Moderate dementia identified. Consult a neurologist promptly.".data)]

/-- `doctor_notes.get(label, "Further evaluation advised.")`. -/
def lookupNote (lbl : Str) : Str :=
  match doctor_notes.find? (fun p => p.1 = lbl) with
  | some p => p.2
  | none => "Further evaluation advised.".data

/-- Python truthiness of `x or default` on an optional list: the default
is used when the key is absent or the list is empty. -/
def pyOr (o : Option (List Str)) (dflt : List Str) : List Str :=
  match o with
  | none => dflt
  | some [] => dflt
  | some (x :: xs) => x :: xs

/-- `generate_pdf(d)`, as the ordered list of canvas items.  `embedOk`
says whether `d["image"].save` + `drawImage` succeed; any exception there
(including a missing `image` key) is caught and replaced by the
`"[image error]"` placeholder.  The `name`, `age`, `gender` and
`diagnosis` keys are read with `d[...]`, so a missing one raises
(`none`). -/
def generate_pdf (d : SRec) (embedOk : Bool) : Option (List PdfItem) :=
  match d.name, d.age, d.gender, d.diagnosis with
  | some nm, some ag, some gd, some dg =>
      some ([PdfItem.title, PdfItem.timestamp, PdfItem.demographicsHeading,
             PdfItem.line (("Name: ").data ++ nm),
             PdfItem.line (("Age: ").data ++ ag),
             PdfItem.line (("Gender: ").data ++ gd),
             PdfItem.findingsHeading,
             PdfItem.line ("Symptoms:".data)]
            ++ (pyOr d.symptoms ["None reported".data]).map PdfItem.bullet
            ++ [PdfItem.line ("Reason for Scan:".data)]
            ++ (pyOr d.reason ["Not specified".data]).map PdfItem.bullet
            ++ [PdfItem.diagHeading,
                PdfItem.line (("Predicted Diagnosis: ").data ++ dg),
                (if embedOk && d.image.isSome then PdfItem.imageThumb
                 else PdfItem.placeholder),
                PdfItem.recHeading,
                PdfItem.line (lookupNote dg),
                PdfItem.footer])
  | _, _, _, _ => none

/-- The line drawn between the recommendation heading and the footer:
the report's recommendation line. -/
def recommendation_line (items : List PdfItem) : Option Str :=
  match items.reverse with
  | PdfItem.footer :: PdfItem.line s :: PdfItem.recHeading :: _ => some s
  | _ => none

/-- A transport/classifier environment in which decoding always fails
(`UnidentifiedImageError` on every blob). -/
def env0 : Env :=
  { download := fun _ => true, decode := fun _ => none, classify := fun _ => none }

/-- Process state at module load: no active conversation, empty
`user_data`. -/
def init0 : BotState := { conv := [], data := SRec.empty }

/-- An environment in which everything succeeds and the model always
answers `NonDemented`. -/
def envW : Env :=
  { download := fun _ => true, decode := fun b => some b,
    classify := fun _ => some (("NonDemented").data) }

/-- An environment in which download and decode succeed but
`model.predict` raises. -/
def envRaise : Env :=
  { download := fun _ => true, decode := fun b => some b,
    classify := fun _ => none }

/-- A state with chat 0 waiting at the IMAGE step. -/
def stImage : BotState := { conv := [(0, Step.image)], data := SRec.empty }

/-- A state with chat 1 waiting at the NAME step. -/
def stName : BotState := { conv := [(1, Step.name)], data := SRec.empty }

/-- A state with chat 3 waiting at the SYMPTOMS step. -/
def stSymptoms : BotState := { conv := [(3, Step.symptoms)], data := SRec.empty }

/-- A completed `user_data` dictionary (no image key, so embedding the
thumbnail fails and is caught). -/
def recW : SRec :=
  { name := some (("Jane").data), age := some (("70").data),
    gender := some (("Female").data), symptoms := none, reason := none,
    image := none, diagnosis := some (("MildDemented").data) }
theorem pySplitComma_ne_nil (s : Str) : pySplitComma s ≠ [] := by
  induction s with
  | nil => simp [pySplitComma]
  | cons c rest ih =>
      by_cases h : c = ','
      · simp [pySplitComma, h]
      · simp only [pySplitComma, h, if_neg]
        cases hr : pySplitComma rest with
        | nil => simp
        | cons p ps => simp

theorem lookupConv_filter_self (l : List (Nat × Step)) (sid : Nat) :
    lookupConv (l.filter (fun p => ¬ p.1 = sid)) sid = none := by
  unfold lookupConv
  have h : List.find? (fun p => p.1 = sid) (l.filter (fun p => ¬ p.1 = sid)) = none := by
    rw [List.find?_eq_none]
    intro x hx
    have hmem := (List.mem_filter.mp hx).2
    simp at hmem ⊢
    exact hmem
  rw [h]
  rfl

theorem lookupConv_filter_other (l : List (Nat × Step)) (asid sid : Nat)
    (h : ¬ asid = sid) :
    lookupConv (l.filter (fun p => ¬ p.1 = asid)) sid = lookupConv l sid := by
  induction l with
  | nil => rfl
  | cons a l ih =>
      unfold lookupConv at ih ⊢
      by_cases ha : a.1 = asid
      · rw [List.filter_cons_of_neg (by simp [ha])]
        rw [List.find?_cons_of_neg _ (by simp [ha, h])]
        exact ih
      · rw [List.filter_cons_of_pos (by simp [ha])]
        by_cases hs : a.1 = sid
        · rw [List.find?_cons_of_pos _ (by simp [hs]), List.find?_cons_of_pos _ (by simp [hs])]
        · rw [List.find?_cons_of_neg _ (by simp [hs]), List.find?_cons_of_neg _ (by simp [hs])]
          exact ih

theorem lookup_setConv_self (l : List (Nat × Step)) (sid : Nat) (s : Option Step) :
    lookupConv (setConv l sid s) sid = s := by
  cases s with
  | none => exact lookupConv_filter_self l sid
  | some st =>
      unfold setConv lookupConv
      rw [List.find?_cons_of_pos _ (by simp)]
      rfl

theorem lookup_setConv_other (l : List (Nat × Step)) (asid sid : Nat)
    (s : Option Step) (h : ¬ asid = sid) :
    lookupConv (setConv l asid s) sid = lookupConv l sid := by
  cases s with
  | none => exact lookupConv_filter_other l asid sid h
  | some st =>
      unfold setConv
      have h2 : lookupConv ((asid, st) :: l.filter (fun p => ¬ p.1 = asid)) sid
          = lookupConv (l.filter (fun p => ¬ p.1 = asid)) sid := by
        unfold lookupConv
        rw [List.find?_cons_of_neg _ (by simp [h])]
      rw [h2]
      exact lookupConv_filter_other l asid sid h

/-- Dispatching an update of chat `asid` never touches the conversation
state of a different chat `sid`. -/
theorem handle_lookup_other (env : Env) (st : BotState) (asid sid : Nat) (ev : Ev)
    (h : ¬ asid = sid) :
    lookupConv (handle env st asid ev).1.conv sid = lookupConv st.conv sid := by
  unfold handle
  cases hc : lookupConv st.conv asid with
  | none =>
      cases ev <;> simp [start, lookup_setConv_other _ _ _ _ h]
  | some cur =>
      cases ev with
      | text t =>
          cases cur <;>
            simp [get_name, get_age, get_gender, get_symptoms, get_reason,
              lookup_setConv_other _ _ _ _ h]
      | photo blob =>
          cases cur <;> simp [lookup_setConv_other _ _ _ _ h]
          by_cases hr : (get_image env st.data blob).2.2.2 <;>
            simp [hr, lookup_setConv_other _ _ _ _ h]
      | cancelCmd => simp [lookup_setConv_other _ _ _ _ h]
      | startCmd => simp

/-- C8: for every active session and every dispatched update (of any
chat), the session's position in the flow order either stays put,
advances by exactly one step, or jumps directly to Terminal (index 6);
it never regresses and never skips an intermediate step forward. -/
theorem step_never_regresses (env : Env) (st : BotState) (asid sid : Nat) (ev : Ev)
    (cur : Step) (h : lookupConv st.conv sid = some cur) :
    stepIdx (lookupConv (handle env st asid ev).1.conv sid) = stepIdx (some cur)
    ∨ stepIdx (lookupConv (handle env st asid ev).1.conv sid) = stepIdx (some cur) + 1
    ∨ stepIdx (lookupConv (handle env st asid ev).1.conv sid) = 6 := by
  by_cases ha : asid = sid
  · subst ha
    unfold handle
    rw [h]
    cases ev with
    | text t =>
        cases cur <;>
          simp [get_name, get_age, get_gender, get_symptoms, get_reason,
            lookup_setConv_self, stepIdx, h]
    | photo blob =>
        cases cur <;> simp [h, stepIdx]
        by_cases hr : (get_image env st.data blob).2.2.2
        · simp [hr, h, stepIdx]
        · simp only [hr, if_neg, Bool.not_eq_true, lookup_setConv_self]
          unfold get_image
          by_cases hd : env.download blob = false
          · simp [hd, stepIdx]
          · simp only [hd, if_neg]
            cases henv : env.decode blob with
            | none => simp [stepIdx]
            | some img =>
                cases hcl : env.classify img with
                | none =>
                    exfalso
                    apply hr
                    simp [get_image, hd, henv, hcl]
                | some lb => simp [stepIdx, lookup_setConv_self, hcl]
    | cancelCmd => simp [lookup_setConv_self, stepIdx]
    | startCmd => simp [h, stepIdx]
  · rw [handle_lookup_other env st asid sid ev ha, h]
    left
    rfl

/-- Witness for C8: a text update at the NAME step satisfies the
progress disjunction. -/
theorem step_never_regresses_witness :
    stepIdx (lookupConv (handle envW stName 1 (Ev.text (("Bob").data))).1.conv 1)
        = stepIdx (some Step.name)
    ∨ stepIdx (lookupConv (handle envW stName 1 (Ev.text (("Bob").data))).1.conv 1)
        = stepIdx (some Step.name) + 1
    ∨ stepIdx (lookupConv (handle envW stName 1 (Ev.text (("Bob").data))).1.conv 1)
        = 6 :=
  step_never_regresses envW stName 1 1 (Ev.text (("Bob").data)) Step.name (by decide)

/-- C9: a photo update for a session whose current step is not IMAGE
(including a disposed/Terminal session) matches no handler: the whole
process state — in particular the `image` and `diagnosis` fields and the
session's step — is unchanged and nothing is sent. -/
theorem photo_outside_image_noop (env : Env) (st : BotState) (sid blob : Nat)
    (h : ¬ lookupConv st.conv sid = some Step.image) :
    handle env st sid (Ev.photo blob) = (st, []) := by
  unfold handle
  cases hc : lookupConv st.conv sid with
  | none => rfl
  | some cur => cases cur <;> first | rfl | (exact absurd hc h)

/-- Witness for C9: a photo sent while chat 1 is at the NAME step is a
no-op. -/
theorem photo_outside_image_witness :
    handle envW stName 1 (Ev.photo 9) = (stName, []) :=
  photo_outside_image_noop envW stName 1 9 (by decide)

/-- C4: when the blob at the IMAGE step downloads but fails to decode
(`UnidentifiedImageError`), the session is terminated (its conversation
entry removed) with the format-error message, `user_data` is untouched
(neither `image` nor `diagnosis` is written), and the result is the same
for every classifier function — the classifier is never invoked. -/
theorem decode_failure_terminates_no_classify (env : Env) (st : BotState)
    (sid blob : Nat) (himg : lookupConv st.conv sid = some Step.image)
    (hdl : env.download blob = true) (hdec : env.decode blob = none) :
    handle env st sid (Ev.photo blob)
      = ({ conv := setConv st.conv sid none, data := st.data }, [Out.warnFormat])
    ∧ ∀ cl : Nat → Option Str,
        handle { env with classify := cl } st sid (Ev.photo blob)
          = ({ conv := setConv st.conv sid none, data := st.data }, [Out.warnFormat]) := by
  constructor
  · unfold handle
    rw [himg]
    simp [get_image, hdl, hdec]
  · intro cl
    unfold handle
    rw [himg]
    simp [get_image, hdl, hdec]

/-- Witness for C4: a concrete undecodable blob at the IMAGE step. -/
theorem decode_failure_witness :
    handle env0 stImage 0 (Ev.photo 5)
      = ({ conv := setConv stImage.conv 0 none, data := stImage.data },
         [Out.warnFormat]) :=
  (decode_failure_terminates_no_classify env0 stImage 0 5 (by decide) rfl rfl).1

/-- C5 counterexample: with a classifier that raises, the photo update
leaves the session in the IMAGE step (it does not reach a terminal
state) and the only observable output is the global error logger — no
user-visible classification-failure message is sent. -/
theorem classifier_failure_no_message_cex :
    lookupConv (handle envRaise stImage 0 (Ev.photo 7)).1.conv 0 = some Step.image
    ∧ (handle envRaise stImage 0 (Ev.photo 7)).2 = [Out.logged] := by
  constructor <;> decide

/-- C5 (amended): when `model.predict` raises on the decoded image, the
exception escapes `get_image`; the dispatcher's `log_error` records it,
no reply is sent to the user, the conversation stays in the IMAGE step,
and `user_data` is left with `image` written but `diagnosis` not. -/
theorem classifier_failure_logged_only (env : Env) (st : BotState)
    (sid blob img : Nat) (himg : lookupConv st.conv sid = some Step.image)
    (hdl : env.download blob = true) (hdec : env.decode blob = some img)
    (hcl : env.classify img = none) :
    handle env st sid (Ev.photo blob)
      = ({ conv := st.conv, data := { st.data with image := some img } },
         [Out.logged]) := by
  unfold handle
  rw [himg]
  simp [get_image, hdl, hdec, hcl]

/-- Witness for C5's amended theorem at a concrete blob. -/
theorem classifier_failure_witness :
    handle envRaise stImage 0 (Ev.photo 7)
      = ({ conv := stImage.conv, data := { stImage.data with image := some 7 } },
         [Out.logged]) :=
  classifier_failure_logged_only envRaise stImage 0 7 7 (by decide) rfl rfl rfl

/-- C3 (amended): `/cancel` while a conversation is active at any step
ends the conversation (the session's entry is removed — Terminal) and
sends the cancellation reply, but `user_data` is NOT cleared: every
field collected so far is retained and remains visible afterwards. -/
theorem cancel_terminates_but_retains_data (env : Env) (st : BotState)
    (sid : Nat) (cur : Step) (h : lookupConv st.conv sid = some cur) :
    handle env st sid Ev.cancelCmd
      = ({ conv := setConv st.conv sid none, data := st.data }, [Out.cancelled]) := by
  unfold handle
  rw [h]

/-- Witness for C3's amended theorem: cancelling at the NAME step. -/
theorem cancel_retains_data_witness :
    handle envW stName 1 Ev.cancelCmd
      = ({ conv := setConv stName.conv 1 none, data := stName.data },
         [Out.cancelled]) :=
  cancel_terminates_but_retains_data envW stName 1 Step.name (by decide)

/-- C3 counterexample: after `/start`, entering the name "Alice" and
`/cancel`, the session is Terminal (conversation gone) yet the stored
`name` field still holds "Alice" — the collected data is not
discarded and a subsequent flow starts with it still present. -/
theorem cancel_retains_fields_cex :
    lookupConv (runEvents env0 init0
        [(1, Ev.startCmd), (1, Ev.text (("Alice").data)), (1, Ev.cancelCmd)]).conv 1
      = none
    ∧ (runEvents env0 init0
        [(1, Ev.startCmd), (1, Ev.text (("Alice").data)), (1, Ev.cancelCmd)]).data.name
      = some (("Alice").data) := by
  constructor <;> decide

/-- C2: the single module-level `user_data` dictionary is shared by all
chats.  Interleaving two sessions (chat 1 enters "Alice", then chat 2
enters "Bob") leaves chat 1's stored name as "Bob", whereas running
chat 1's events alone stores "Alice": sessions observe each other's
fields, refuting isolation. -/
theorem shared_user_data_breaks_isolation :
    (runEvents env0 init0
        [(1, Ev.startCmd), (2, Ev.startCmd),
         (1, Ev.text (("Alice").data)), (2, Ev.text (("Bob").data))]).data.name
      = some (("Bob").data)
    ∧ (runEvents env0 init0
        [(1, Ev.startCmd), (1, Ev.text (("Alice").data))]).data.name
      = some (("Alice").data) := by
  constructor <;> decide

/-- C1 counterexample: the handlers keep entries that are empty after
trimming.  `" memory loss,, confusion "` is stored as
`["Memory loss", "", "Confusion"]` (three entries, one empty) and
`" a , ,b"` as `["A", "", "B"]` — not the two-element sequences the
claim asserts, and they do contain the empty string. -/
theorem symptoms_keeps_empty_entries_cex :
    ((get_symptoms SRec.empty ((" memory loss,, confusion ").data)).1.symptoms).getD []
      = [("Memory loss").data, [], ("Confusion").data]
    ∧ ((get_reason SRec.empty ((" a , ,b").data)).1.reason).getD []
      = [("A").data, [], ("B").data] := by
  constructor <;> decide

/-- C1 (amended): at the SYMPTOMS and REASON steps the input is split on
commas and each piece is stripped then capitalized; entries empty after
trimming are NOT removed.  The split always yields at least one piece,
and the two spec test inputs evaluate to three-element sequences with an
empty middle entry. -/
theorem symptoms_reason_split_trim_cap (env : Env) (st : BotState)
    (sid : Nat) (t : Str) :
    (lookupConv st.conv sid = some Step.symptoms →
      handle env st sid (Ev.text t)
        = ({ conv := setConv st.conv sid (some Step.reason),
             data := { st.data with symptoms := some (splitTrimCap t) } },
           [Out.askReason]))
    ∧ (lookupConv st.conv sid = some Step.reason →
      handle env st sid (Ev.text t)
        = ({ conv := setConv st.conv sid (some Step.image),
             data := { st.data with reason := some (splitTrimCap t) } },
           [Out.askImage]))
    ∧ splitTrimCap ((" memory loss,, confusion ").data)
        = [("Memory loss").data, [], ("Confusion").data]
    ∧ splitTrimCap ((" a , ,b").data) = [("A").data, [], ("B").data]
    ∧ ¬ splitTrimCap t = [] := by
  refine ⟨?_, ?_, by decide, by decide, ?_⟩
  · intro h
    unfold handle
    rw [h]
    rfl
  · intro h
    unfold handle
    rw [h]
    rfl
  · simp [splitTrimCap, pySplitComma_ne_nil t]

/-- Witness for C1's amended theorem: a text at the SYMPTOMS step. -/
theorem symptoms_reason_split_trim_cap_witness :
    handle envW stSymptoms 3 (Ev.text (("a,b").data))
      = ({ conv := setConv stSymptoms.conv 3 (some Step.reason),
           data := { stSymptoms.data with
                     symptoms := some (splitTrimCap (("a,b").data)) } },
         [Out.askReason]) :=
  (symptoms_reason_split_trim_cap envW stSymptoms 3 (("a,b").data)).1 (by decide)

/-- C7: with the required keys present, `generate_pdf` succeeds even when
embedding the thumbnail fails: the document is produced, is non-empty,
contains the `"[image error]"` placeholder in place of the thumbnail,
and contains no embedded image. -/
theorem embed_failure_nonfatal (d : SRec) (nm ag gd dg : Str)
    (hn : d.name = some nm) (ha : d.age = some ag) (hg : d.gender = some gd)
    (hd : d.diagnosis = some dg) :
    (generate_pdf d false).isSome = true
    ∧ ¬ (generate_pdf d false).getD [] = []
    ∧ PdfItem.placeholder ∈ (generate_pdf d false).getD []
    ∧ ¬ PdfItem.imageThumb ∈ (generate_pdf d false).getD [] := by
  simp [generate_pdf, hn, ha, hg, hd]

/-- Witness for C7 on a concrete completed record. -/
theorem embed_failure_witness :
    (generate_pdf recW false).isSome = true
    ∧ ¬ (generate_pdf recW false).getD [] = []
    ∧ PdfItem.placeholder ∈ (generate_pdf recW false).getD []
    ∧ ¬ PdfItem.imageThumb ∈ (generate_pdf recW false).getD [] :=
  embed_failure_nonfatal recW (("Jane").data) (("70").data) (("Female").data)
    (("MildDemented").data) rfl rfl rfl rfl

/-- C6: in every generated report the recommendation line (the line
drawn between the recommendation heading and the footer) is
`doctor_notes.get(diagnosis, "Further evaluation advised.")`: it equals
the table entry whenever the diagnosis label is a key of `doctor_notes`,
and the generic fallback string whenever it is not. -/
theorem recommendation_line_lookup (d : SRec) (e : Bool) (items : List PdfItem)
    (dg : Str) (hpdf : generate_pdf d e = some items) (hdg : d.diagnosis = some dg) :
    recommendation_line items = some (lookupNote dg)
    ∧ (∀ txt, (dg, txt) ∈ doctor_notes → lookupNote dg = txt)
    ∧ ((∀ txt, ¬ (dg, txt) ∈ doctor_notes) →
        lookupNote dg = ("Further evaluation advised.").data) := by
  refine ⟨?_, ?_, ?_⟩
  · cases hn : d.name with
    | none => simp [generate_pdf, hn] at hpdf
    | some nm =>
        cases ha : d.age with
        | none => simp [generate_pdf, hn, ha] at hpdf
        | some ag =>
            cases hg : d.gender with
            | none => simp [generate_pdf, hn, ha, hg] at hpdf
            | some gd =>
                simp only [generate_pdf, hn, ha, hg, hdg, Option.some.injEq] at hpdf
                rw [← hpdf]
                simp [recommendation_line, List.reverse_append]
  · intro txt hmem
    simp only [doctor_notes, List.mem_cons, List.mem_singleton, Prod.mk.injEq,
      List.not_mem_nil, or_false] at hmem
    rcases hmem with ⟨h1, h2⟩ | ⟨h1, h2⟩ | ⟨h1, h2⟩ | ⟨h1, h2⟩ <;>
      (subst h1; subst h2; decide)
  · intro hno
    unfold lookupNote
    cases hf : doctor_notes.find? (fun p => p.1 = dg) with
    | none => rfl
    | some p =>
        exfalso
        have hp1 : p.1 = dg := by
          have := List.find?_some hf
          simpa using this
        have hm : p ∈ doctor_notes := List.mem_of_find?_eq_some hf
        apply hno p.2
        have hpair : (dg, p.2) = p := by
          rw [← hp1]
        rw [hpair]
        exact hm

/-- Witness for C6 on a concrete completed record whose diagnosis is a
key of the table. -/
theorem recommendation_line_witness :
    recommendation_line ((generate_pdf recW false).getD [])
      = some (lookupNote (("MildDemented").data)) :=
  (recommendation_line_lookup recW false ((generate_pdf recW false).getD [])
    (("MildDemented").data) (by rfl) (by rfl)).1

/-- C10: Python `split(",")` never returns an empty list, so the
symptoms and reason sequences stored by `get_symptoms`/`get_reason` are
always non-empty; consequently Python's `x or default` in
`generate_pdf` picks the stored list, never the `"None reported"` /
`"Not specified"` fallback, for any record produced by the intake
flow. -/
theorem split_nonempty_defaults_unused (d : SRec) (t u : Str) :
    ¬ pySplitComma t = []
    ∧ ¬ splitTrimCap t = []
    ∧ (get_symptoms d t).1.symptoms = some (splitTrimCap t)
    ∧ (get_reason d u).1.reason = some (splitTrimCap u)
    ∧ pyOr (some (splitTrimCap t)) [("None reported").data] = splitTrimCap t
    ∧ pyOr (some (splitTrimCap u)) [("Not specified").data] = splitTrimCap u := by
  have h1 := pySplitComma_ne_nil t
  have h2 : ¬ splitTrimCap t = [] := by simp [splitTrimCap, h1]
  have h2u : ¬ splitTrimCap u = [] := by simp [splitTrimCap, pySplitComma_ne_nil u]
  refine ⟨h1, h2, rfl, rfl, ?_, ?_⟩
  · cases hc : splitTrimCap t with
    | nil => exact absurd hc h2
    | cons x xs => rfl
  · cases hc : splitTrimCap u with
    | nil => exact absurd hc h2u
    | cons x xs => rfl
